import Mathlib

/-!
Verification development for the post-processing script `post.py` of the
diffusion repository.  The script loads flat record arrays produced by three
time-integration schemes, reshapes them into dense (nx, ny) grids, slices
snapshot curves, and plots them against two closed-form reference solutions.

The embedding below translates the relevant parts of the source:
  * the analytical reference functions `initcond`, `exact1`, `exact2`
    (floats are idealised as real numbers; the float power operator `**`
    becomes `Real.rpow`, which agrees with it on the domains used here);
  * the numpy reshape of a flat array into an (nx, ny) C-ordered grid and
    numpy basic integer indexing along one axis (valid range [-n, n),
    negative indices counting from the end), modelled on lists;
  * the control flow of the top-level script and of the functions
    `plot_space_snaps` and `plot_time`, modelled as effect traces: the
    observable effects are data-file loads, prints, drawn lines and figure
    saves, and execution halts at the first raised exception.  Exception
    messages keep the wording of CPython 2 / numpy with quotes omitted.
-/

namespace Diffusion

open Real Filter List

/-- Gaussian initial condition from post.py: `((0.4*np.pi)**(-0.5))*(np.exp(-2.5*(x-10.0)*(x-10.0)))`. -/
noncomputable def initcond (x : ℝ) : ℝ :=
  (0.4 * Real.pi) ^ ((-0.5 : ℝ)) * Real.exp (-2.5 * (x - 10.0) * (x - 10.0))

/-- Advected-Gaussian reference from post.py:
`(4.0*np.pi*gamma*t)**(-0.5)*np.exp(-((x-t)**2.0)/(4.0*gamma*t))`.
The Python default argument `gamma=0.01` is modelled by `exact1Default`. -/
noncomputable def exact1 (x t gamma : ℝ) : ℝ :=
  (4.0 * Real.pi * gamma * t) ^ ((-0.5 : ℝ)) *
    Real.exp (-((x - t) ^ ((2.0 : ℝ))) / (4.0 * gamma * t))

/-- Call of `exact1` with its default argument `gamma = 0.01`. -/
noncomputable def exact1Default (x t : ℝ) : ℝ := exact1 x t 0.01

/-- Stationary-Gaussian reference from post.py:
`(0.4*np.pi)**(-0.5)*np.exp(-2.5*(x-t)**2.0)`.  The `gamma` parameter is
declared (with Python default 0.01) but does not occur in the body. -/
noncomputable def exact2 (x t gamma : ℝ) : ℝ :=
  (0.4 * Real.pi) ^ ((-0.5 : ℝ)) * Real.exp (-2.5 * (x - t) ^ ((2.0 : ℝ)))

/-- The float exponent `** 2.0` agrees with squaring. -/
theorem rpow_two_eq_mul_self (y : ℝ) : y ^ ((2.0 : ℝ)) = y * y := by
  have h : ((2.0 : ℝ)) = ((2 : ℕ) : ℝ) := by norm_num
  rw [h, Real.rpow_natCast]
  ring

/-- The float exponent `** (-0.5)` on a positive base is the inverse square root. -/
theorem rpow_neg_half_eq_inv_sqrt {a : ℝ} (ha : 0 < a) :
    a ^ ((-0.5 : ℝ)) = (Real.sqrt a)⁻¹ := by
  have h : ((-0.5 : ℝ)) = -(1 / 2 : ℝ) := by norm_num
  rw [h, Real.rpow_neg ha.le, Real.sqrt_eq_rpow]

/-- Error message of a numpy reshape with a mismatched element count. -/
def reshapeErrMsg (sz nx ny : Nat) : String :=
  s!"cannot reshape array of size {sz} into shape ({nx},{ny})"

/-- Numpy `a.reshape((nx, ny))` on a flat 1-D array, C (row-major) order, as
used on the `time`, `x` and `state` fields in post.py: element (i, j) of the
result views flat element i*ny + j, and the call raises a ValueError unless
the flat length is exactly nx*ny. -/
def reshape {α : Type} [Inhabited α] (flat : List α) (nx ny : Nat) :
    Except String (List (List α)) :=
  if flat.length = nx * ny then
    Except.ok ((List.range nx).map fun i =>
      (List.range ny).map fun j => flat.getD (i * ny + j) default)
  else
    Except.error (reshapeErrMsg flat.length nx ny)

/-- Error message of numpy basic indexing with an out-of-range index. -/
def npBoundsMsg (i : Int) (n : Nat) : String :=
  s!"index {i} is out of bounds for axis 0 with size {n}"

/-- Numpy basic integer indexing along an axis of size n: an index is valid
iff -n <= i < n, and a negative index counts from the end (wraps to i + n). -/
def npIndex (n : Nat) (i : Int) : Except String Nat :=
  if 0 ≤ i then
    if i < (n : Int) then Except.ok i.toNat else Except.error (npBoundsMsg i n)
  else
    if -(n : Int) ≤ i then Except.ok (i + (n : Int)).toNat
    else Except.error (npBoundsMsg i n)

/-- Row slice `grid[i, :]` of a 2-D grid, as in `data[time][sindices[0], :]`
inside `plot_space_snaps`. -/
def rowSlice {α : Type} (grid : List (List α)) (i : Int) :
    Except String (List α) :=
  match npIndex grid.length i with
  | Except.ok k => Except.ok (grid.getD k [])
  | Except.error e => Except.error e

/-- Column slice `grid[:, j]` of a rectangular 2-D grid, as in
`data[state][:, tindices[0]]` inside `plot_time_snaps`; the axis-1 size of a
rectangular grid is the length of its first row. -/
def colSlice {α : Type} [Inhabited α] (grid : List (List α)) (j : Int) :
    Except String (List α) :=
  match npIndex (grid.headD []).length j with
  | Except.ok k => Except.ok (grid.map fun row => row.getD k default)
  | Except.error e => Except.error e

/-- Reading position k of the map of a function over `List.range n`. -/
theorem getD_map_range {β : Type} (n k : Nat) (hk : k < n) (f : Nat → β) (d : β) :
    (((List.range n).map f).getD k d) = f k := by
  have hlen : k < ((List.range n).map f).length := by
    simpa using hk
  rw [List.getD_eq_getElem _ _ hlen]
  simp

/-- On a length-matched flat array, `reshape` succeeds with the row-major grid. -/
theorem reshape_ok {α : Type} [Inhabited α] (flat : List α) (nx ny : Nat)
    (h : flat.length = nx * ny) :
    reshape flat nx ny =
      Except.ok ((List.range nx).map fun i =>
        (List.range ny).map fun j => flat.getD (i * ny + j) default) := by
  simp [reshape, h]

/-- An in-range nonnegative index passes the numpy bounds check unchanged. -/
theorem npIndex_nonneg_lt (n : Nat) (i : Int) (h0 : 0 ≤ i) (hn : i < (n : Int)) :
    npIndex n i = Except.ok i.toNat := by
  simp [npIndex, h0, hn]

/-- An index below -n or at or above n fails the numpy bounds check with an
error message naming the index. -/
theorem npIndex_out_of_bounds (n : Nat) (i : Int)
    (h : i < -(n : Int) ∨ (n : Int) ≤ i) :
    npIndex n i = Except.error (npBoundsMsg i n) := by
  rcases h with h | h
  · have h0 : ¬ (0 ≤ i) := by omega
    have h1 : ¬ (-(n : Int) ≤ i) := by omega
    simp [npIndex, h0, h1]
  · have h0 : 0 ≤ i := by omega
    have h1 : ¬ (i < (n : Int)) := by omega
    simp [npIndex, h0, h1]

/-- A negative index in [-n, 0) wraps around to i + n. -/
theorem npIndex_neg_wraps (n : Nat) (i : Int) (h0 : -(n : Int) ≤ i) (h1 : i < 0) :
    npIndex n i = Except.ok (i + (n : Int)).toNat := by
  have h2 : ¬ (0 ≤ i) := by omega
  simp [npIndex, h2, h0]

/-- C1: reshaping a flat array of length nx*ny into an (nx, ny) grid and
reading element (i, j) with 0 <= i < nx and 0 <= j < ny returns the flat
element at index i*ny + j (row-major round-trip). -/
theorem reshape_roundtrip {α : Type} [Inhabited α] (flat : List α)
    (nx ny i j : Nat) (hlen : flat.length = nx * ny) (hi : i < nx) (hj : j < ny) :
    ∃ g, reshape flat nx ny = Except.ok g ∧
      (g.getD i []).getD j default = flat.getD (i * ny + j) default := by
  refine ⟨_, reshape_ok flat nx ny hlen, ?_⟩
  rw [getD_map_range nx i hi, getD_map_range ny j hj]

/-- Witness for C1 on the concrete flat array [10,..,60] reshaped to (2, 3). -/
theorem reshape_roundtrip_witness :
    (List.length [10, 20, 30, 40, 50, 60] = 2 * 3) ∧
    (∃ g, reshape ([10, 20, 30, 40, 50, 60] : List Nat) 2 3 = Except.ok g ∧
      (g.getD 1 []).getD 2 default =
        List.getD ([10, 20, 30, 40, 50, 60] : List Nat) (1 * 3 + 2) default) :=
  ⟨rfl, reshape_roundtrip [10, 20, 30, 40, 50, 60] 2 3 1 2 rfl (by decide) (by decide)⟩

/-- C3: the reshape into the fixed (nx, ny) grid succeeds exactly when the
flat length equals nx*ny; on success no element is truncated or padded (the
grid has nx rows of ny entries, each reading its flat element), and on a
length mismatch it aborts with an error surfaced to the caller. -/
theorem reshape_length_check {α : Type} [Inhabited α] (flat : List α) (nx ny : Nat) :
    (flat.length = nx * ny →
      ∃ g, reshape flat nx ny = Except.ok g ∧ g.length = nx ∧
        (∀ row ∈ g, row.length = ny) ∧
        (∀ i j, i < nx → j < ny →
          (g.getD i []).getD j default = flat.getD (i * ny + j) default)) ∧
    (flat.length ≠ nx * ny →
      reshape flat nx ny = Except.error (reshapeErrMsg flat.length nx ny)) := by
  constructor
  · intro h
    refine ⟨_, reshape_ok flat nx ny h, by simp, ?_, ?_⟩
    · intro row hrow
      simp only [List.mem_map, List.mem_range] at hrow
      obtain ⟨i, _, rfl⟩ := hrow
      simp
    · intro i j hi hj
      rw [getD_map_range nx i hi, getD_map_range ny j hj]
  · intro h
    simp [reshape, h]

/-- Witness for C3 on the length-3 array [1,2,3] against target shape (2, 2). -/
theorem reshape_length_check_witness :
    reshape ([1, 2, 3] : List Nat) 2 2 =
      Except.error (reshapeErrMsg (List.length ([1, 2, 3] : List Nat)) 2 2) :=
  (reshape_length_check ([1, 2, 3] : List Nat) 2 2).2 (by decide)

/-- C2 counterexample: slicing a reshaped grid at the integer index -1, which
lies outside [0, nx), does not fail with a bounds error: numpy indexing wraps
a negative index around, returning the last row. -/
theorem negative_index_wraps :
    rowSlice ([[1, 2, 3], [4, 5, 6]] : List (List Nat)) (-1) =
      Except.ok [4, 5, 6] := rfl

/-- C2 amended: slicing a reshaped grid at an integer index outside the numpy
valid range [-n, n) for the sliced axis (n = nx for a row slice, n = ny for a
column slice) fails with an explicit bounds error naming the offending index
and returns no data, while a negative index in [-n, 0) wraps around to
index + n. -/
theorem slice_index_bounds {α : Type} [Inhabited α] (g : List (List α)) (i : Int) :
    ((i < -(g.length : Int) ∨ (g.length : Int) ≤ i) →
      rowSlice g i = Except.error (npBoundsMsg i g.length)) ∧
    (-(g.length : Int) ≤ i → i < 0 →
      rowSlice g i = Except.ok (g.getD (i + (g.length : Int)).toNat [])) ∧
    ((i < -(((g.headD []).length : Int)) ∨ (((g.headD []).length : Int)) ≤ i) →
      colSlice g i = Except.error (npBoundsMsg i (g.headD []).length)) ∧
    (-(((g.headD []).length : Int)) ≤ i → i < 0 →
      colSlice g i = Except.ok
        (g.map fun row => row.getD (i + (((g.headD []).length : Int))).toNat default)) := by
  refine ⟨?_, ?_, ?_, ?_⟩
  · intro h
    simp only [rowSlice, npIndex_out_of_bounds g.length i h]
  · intro h0 h1
    simp only [rowSlice, npIndex_neg_wraps g.length i h0 h1]
  · intro h
    simp only [colSlice, npIndex_out_of_bounds (g.headD []).length i h]
  · intro h0 h1
    simp only [colSlice, npIndex_neg_wraps (g.headD []).length i h0 h1]

/-- Witness for the amended C2 at the concrete grid [[1],[2]] and index 5. -/
theorem slice_index_bounds_witness :
    rowSlice ([[1], [2]] : List (List Nat)) 5 =
      Except.error (npBoundsMsg 5 (List.length ([[1], [2]] : List (List Nat)))) :=
  (slice_index_bounds ([[1], [2]] : List (List Nat)) 5).1 (Or.inr (by decide))

/-- C7: for a grid reshaped with nx = 500 and ny = 3001, slicing at the two
snapshot row indices 125 and 250 used by plot_space_snaps returns two 1-D
sequences, each of length 3001. -/
theorem space_snap_lengths {α : Type} [Inhabited α] (flat : List α)
    (h : flat.length = 500 * 3001) :
    ∃ g r₁ r₂, reshape flat 500 3001 = Except.ok g ∧
      rowSlice g 125 = Except.ok r₁ ∧ rowSlice g 250 = Except.ok r₂ ∧
      r₁.length = 3001 ∧ r₂.length = 3001 := by
  refine ⟨_, (List.range 3001).map (fun j => flat.getD (125 * 3001 + j) default),
    (List.range 3001).map (fun j => flat.getD (250 * 3001 + j) default),
    reshape_ok flat 500 3001 h, ?_, ?_, by simp, by simp⟩
  · have hg : ((List.range 500).map fun i =>
        (List.range 3001).map fun j => flat.getD (i * 3001 + j) default).length = 500 := by
      simp
    simp only [rowSlice, hg, npIndex_nonneg_lt 500 125 (by decide) (by decide)]
    rw [show ((125 : Int).toNat) = 125 from rfl, getD_map_range 500 125 (by decide)]
  · have hg : ((List.range 500).map fun i =>
        (List.range 3001).map fun j => flat.getD (i * 3001 + j) default).length = 500 := by
      simp
    simp only [rowSlice, hg, npIndex_nonneg_lt 500 250 (by decide) (by decide)]
    rw [show ((250 : Int).toNat) = 250 from rfl, getD_map_range 500 250 (by decide)]

/-- Witness for C7 on a constant flat array of length 500 * 3001. -/
theorem space_snap_lengths_witness :
    (List.replicate (500 * 3001) (0 : Nat)).length = 500 * 3001 ∧
    (∃ g r₁ r₂, reshape (List.replicate (500 * 3001) (0 : Nat)) 500 3001 = Except.ok g ∧
      rowSlice g 125 = Except.ok r₁ ∧ rowSlice g 250 = Except.ok r₂ ∧
      r₁.length = 3001 ∧ r₂.length = 3001) :=
  ⟨List.length_replicate (500 * 3001) (0 : Nat),
    space_snap_lengths (List.replicate (500 * 3001) (0 : Nat))
      (List.length_replicate (500 * 3001) (0 : Nat))⟩

/-- Shifting the position by d away from the time t puts exact1 into the
centered Gaussian form with exponent -(d*d)/(4*gamma*t). -/
theorem exact1_shift (t gamma d : ℝ) :
    exact1 (t + d) t gamma =
      (4.0 * Real.pi * gamma * t) ^ ((-0.5 : ℝ)) *
        Real.exp (-(d * d) / (4.0 * gamma * t)) := by
  rw [exact1, rpow_two_eq_mul_self]
  have h : t + d - t = d := by ring
  rw [h]

/-- Growing the separation between position and time strictly decreases exact1. -/
theorem exact1_abs_lt {t gamma x₁ x₂ : ℝ} (ht : 0 < t) (hg : 0 < gamma)
    (h : |x₁ - t| < |x₂ - t|) : exact1 x₂ t gamma < exact1 x₁ t gamma := by
  have hX : (0 : ℝ) < 4.0 * gamma * t := by positivity
  have hC : (0 : ℝ) < (4.0 * Real.pi * gamma * t) ^ ((-0.5 : ℝ)) :=
    Real.rpow_pos_of_pos (by positivity) _
  rw [exact1, exact1, rpow_two_eq_mul_self, rpow_two_eq_mul_self]
  refine mul_lt_mul_of_pos_left ?_ hC
  refine Real.exp_lt_exp.mpr ?_
  have key : (x₁ - t) * (x₁ - t) < (x₂ - t) * (x₂ - t) :=
    abs_lt_iff_mul_self_lt.mp h
  exact (div_lt_div_iff_of_pos_right hX).mpr (neg_lt_neg key)

/-- C4: for t > 0 and gamma > 0, exact1 equals
(4*pi*gamma*t)^(-1/2) * exp(-(x-t)^2 / (4*gamma*t)), written here with the
inverse square root and the plain square, and the Python default argument
for gamma is 0.01. -/
theorem exact1_formula (x t gamma : ℝ) (ht : 0 < t) (hg : 0 < gamma) :
    exact1 x t gamma =
      (Real.sqrt (4 * Real.pi * gamma * t))⁻¹ *
        Real.exp (-((x - t) * (x - t)) / (4 * gamma * t)) ∧
    exact1Default x t = exact1 x t 0.01 := by
  refine ⟨?_, rfl⟩
  have hbase : (0 : ℝ) < 4.0 * Real.pi * gamma * t := by positivity
  rw [exact1, rpow_two_eq_mul_self, rpow_neg_half_eq_inv_sqrt hbase]
  norm_num

/-- Witness for C4 at x = 0, t = 1, gamma = 1. -/
theorem exact1_formula_witness :
    ((0 : ℝ) < 1) ∧
    (exact1 0 1 1 =
        (Real.sqrt (4 * Real.pi * 1 * 1))⁻¹ *
          Real.exp (-(((0 : ℝ) - 1) * ((0 : ℝ) - 1)) / (4 * 1 * 1)) ∧
      exact1Default 0 1 = exact1 0 1 0.01) :=
  ⟨one_pos, exact1_formula 0 1 1 one_pos one_pos⟩

/-- C5: for fixed t > 0 and gamma > 0, exact1 is symmetric under reflection
of the separation (position minus time), strictly decreases as the absolute
separation grows, and tends to zero as the separation grows without bound. -/
theorem exact1_shape (t gamma : ℝ) (ht : 0 < t) (hg : 0 < gamma) :
    (∀ d, exact1 (t + d) t gamma = exact1 (t - d) t gamma) ∧
    (∀ x₁ x₂, |x₁ - t| < |x₂ - t| → exact1 x₂ t gamma < exact1 x₁ t gamma) ∧
    Tendsto (fun d => exact1 (t + d) t gamma) atTop (nhds 0) := by
  refine ⟨?_, fun x₁ x₂ h => exact1_abs_lt ht hg h, ?_⟩
  · intro d
    have hsub : t - d = t + (-d) := by ring
    rw [hsub, exact1_shift, exact1_shift]
    have h : (-d) * (-d) = d * d := by ring
    rw [h]
  · have hX : (0 : ℝ) < 4.0 * gamma * t := by positivity
    have h1 : Tendsto (fun d : ℝ => d * d) atTop atTop :=
      Tendsto.atTop_mul_atTop tendsto_id tendsto_id
    have h2 : Tendsto (fun d : ℝ => d * d / (4.0 * gamma * t)) atTop atTop :=
      h1.atTop_div_const hX
    have h3 : Tendsto (fun d : ℝ => -(d * d) / (4.0 * gamma * t)) atTop atBot := by
      have h3' := tendsto_neg_atTop_atBot.comp h2
      exact Tendsto.congr (fun d => (neg_div _ _).symm) h3'
    have h4 : Tendsto (fun d : ℝ =>
        Real.exp (-(d * d) / (4.0 * gamma * t))) atTop (nhds 0) :=
      Real.tendsto_exp_atBot.comp h3
    have h5 := h4.const_mul ((4.0 * Real.pi * gamma * t) ^ ((-0.5 : ℝ)))
    rw [mul_zero] at h5
    exact Tendsto.congr (fun d => (exact1_shift t gamma d).symm) h5

/-- Witness for C5 at t = 1, gamma = 1. -/
theorem exact1_shape_witness :
    ((0 : ℝ) < 1) ∧
    ((∀ d, exact1 (1 + d) 1 1 = exact1 (1 - d) 1 1) ∧
     (∀ x₁ x₂, |x₁ - (1 : ℝ)| < |x₂ - 1| → exact1 x₂ 1 1 < exact1 x₁ 1 1) ∧
     Tendsto (fun d => exact1 (1 + d) 1 1) atTop (nhds 0)) :=
  ⟨one_pos, exact1_shape 1 1 one_pos one_pos⟩

/-- Growing the separation between position and time strictly decreases exact2. -/
theorem exact2_abs_lt {t gamma x₁ x₂ : ℝ} (h : |x₁ - t| < |x₂ - t|) :
    exact2 x₂ t gamma < exact2 x₁ t gamma := by
  have hC : (0 : ℝ) < (0.4 * Real.pi) ^ ((-0.5 : ℝ)) :=
    Real.rpow_pos_of_pos (by positivity) _
  rw [exact2, exact2, rpow_two_eq_mul_self, rpow_two_eq_mul_self]
  refine mul_lt_mul_of_pos_left ?_ hC
  refine Real.exp_lt_exp.mpr ?_
  have key : (x₁ - t) * (x₁ - t) < (x₂ - t) * (x₂ - t) :=
    abs_lt_iff_mul_self_lt.mp h
  exact mul_lt_mul_of_neg_left key (by norm_num)

/-- C6: exact2 attains its maximum exactly at position = time, where its
value is (0.4*pi)^(-1/2), and strictly decreases as the absolute separation
from that point grows. -/
theorem exact2_peak (t gamma : ℝ) :
    exact2 t t gamma = (Real.sqrt (0.4 * Real.pi))⁻¹ ∧
    (∀ x, x ≠ t → exact2 x t gamma < exact2 t t gamma) ∧
    (∀ x₁ x₂, |x₁ - t| < |x₂ - t| → exact2 x₂ t gamma < exact2 x₁ t gamma) := by
  refine ⟨?_, ?_, fun x₁ x₂ h => exact2_abs_lt h⟩
  · have hbase : (0 : ℝ) < 0.4 * Real.pi := by positivity
    rw [exact2, rpow_two_eq_mul_self, sub_self,
      rpow_neg_half_eq_inv_sqrt hbase]
    norm_num
  · intro x hx
    refine exact2_abs_lt ?_
    rw [sub_self, abs_zero]
    exact abs_pos.mpr (sub_ne_zero.mpr hx)

/-- Witness for C6 at t = 0, gamma = 0.01, comparing positions 1 and 0. -/
theorem exact2_peak_witness :
    (1 : ℝ) ≠ 0 ∧ exact2 1 0 0.01 < exact2 0 0 0.01 :=
  ⟨one_ne_zero, (exact2_peak 0 0.01).2.1 1 one_ne_zero⟩

/-- C10: exact2 x t gamma coincides with initcond (x - t + 10), ignores its
gamma parameter entirely, and initcond is the special case of exact2 at
time t = 10. -/
theorem exact2_initcond_relation (x t g₁ g₂ : ℝ) :
    exact2 x t g₁ = initcond (x - t + 10.0) ∧
    exact2 x t g₁ = exact2 x t g₂ ∧
    initcond x = exact2 x 10.0 g₁ := by
  refine ⟨?_, rfl, ?_⟩
  · rw [exact2, initcond, rpow_two_eq_mul_self]
    have h : -2.5 * (x - t + 10.0 - 10.0) * (x - t + 10.0 - 10.0) =
        -2.5 * ((x - t) * (x - t)) := by ring
    rw [h]
  · rw [exact2, initcond, rpow_two_eq_mul_self]
    have h : -2.5 * (x - 10.0) * (x - 10.0) =
        -2.5 * ((x - 10.0) * (x - 10.0)) := by ring
    rw [h]

/-!
Control-flow model of the executable part of the script.  The remaining
claims concern what post.py does when run (under Python 2, which its print
statements require).  Observable effects are collected in a trace, and
execution halts at the first raised exception, whose message is returned
alongside the trace.  The array-file reader `npl.Map` and the plotting
library are the external collaborators of the spec: the reader is a
parameter of the model, each drawing call is a `plotLine` effect and
`plt.savefig` is a `savefig` effect.  Array contents are irrelevant to the
control flow, so loaded arrays are modelled as a length together with an
index function; exception messages keep the CPython 2 wording with quotes
omitted.
-/

/-- Observable effects of a script run. -/
inductive Eff where
  | load (file : String)
  | printArr
  | figure
  | plotLine
  | savefig (file : String)
deriving DecidableEq

/-- A loaded flat numpy array: its length and its values. -/
structure NpArray where
  size : Nat
  val : Nat → ℝ

/-- A 2-D numpy array of shape (nx, ny). -/
structure NpGrid where
  nx : Nat
  ny : Nat
  val : Nat → Nat → ℝ

/-- Numpy reshape on the length-and-index-function representation: the same
semantics as `reshape` above (C order, exact element count required), used
where only the control flow of the script matters. -/
def npReshape (a : NpArray) (nx ny : Nat) : Except String NpGrid :=
  if a.size = nx * ny then
    Except.ok ⟨nx, ny, fun i j => a.val (i * ny + j)⟩
  else
    Except.error (reshapeErrMsg a.size nx ny)

/-- Row slice grid[i, :] on the index-function representation, with the same
numpy index check as `rowSlice`. -/
def gridRow (g : NpGrid) (i : Int) : Except String (Nat → ℝ) :=
  match npIndex g.nx i with
  | Except.ok k => Except.ok (fun j => g.val k j)
  | Except.error e => Except.error e

/-- The two reshape representations agree: they fail on exactly the same
shapes with the same error, and on success they read the same elements. -/
theorem npReshape_agrees (flat : List ℝ) (nx ny : Nat) :
    (flat.length ≠ nx * ny →
      npReshape ⟨flat.length, fun k => flat.getD k 0⟩ nx ny =
          Except.error (reshapeErrMsg flat.length nx ny) ∧
        reshape flat nx ny = Except.error (reshapeErrMsg flat.length nx ny)) ∧
    (flat.length = nx * ny → ∀ i j, i < nx → j < ny →
      ∃ g G, reshape flat nx ny = Except.ok g ∧
        npReshape ⟨flat.length, fun k => flat.getD k 0⟩ nx ny = Except.ok G ∧
        G.val i j = (g.getD i []).getD j default) := by
  constructor
  · intro h
    exact ⟨by simp [npReshape, h], by simp [reshape, h]⟩
  · intro h i j hi hj
    refine ⟨_, ⟨nx, ny, fun a b => flat.getD (a * ny + b) 0⟩,
      reshape_ok flat nx ny h, ?_, ?_⟩
    · simp only [npReshape]
      rw [if_pos h]
    · rw [getD_map_range nx i hi, getD_map_range ny j hj]
      rfl

/-- A Python value where only the runtime type drives the control flow. -/
inductive PyVal where
  | float (v : ℝ)
  | list (xs : List PyVal)

/-- Message of the TypeError raised by a %g conversion on a non-float. -/
def typeErrMsg : String := "TypeError: float argument required, not list"

/-- Python 2 percent-formatting of the single %g conversion in the label
expression of plot_space_snaps.  A float argument renders (the digit text is
abstracted); a list is NOT unpacked by the percent operator (only tuples
are), so the conversion raises the TypeError for a float-requiring
conversion applied to a list. -/
def pyFormatG : PyVal → Except String String
  | PyVal.float _ => Except.ok ("x=%2gs")
  | PyVal.list _ => Except.error typeErrMsg

/-- Python list subscription xs[k] for a nonnegative literal index. -/
def pyIndex : PyVal → Nat → Except String PyVal
  | PyVal.list xs, k =>
      if h : k < xs.length then Except.ok (xs.get ⟨k, h⟩)
      else Except.error ("IndexError: list index out of range")
  | PyVal.float _, _ =>
      Except.error ("TypeError: float object is unsubscriptable")

/-- Names assigned at module scope anywhere in post.py: the imports, the
color table and its loop variables, the defined functions, the grid
constants and the loaded data sets.  The names jacobi, seidel, sor and stop
are referenced in the script but never assigned. -/
def scriptGlobals : List String :=
  ["plt", "axes3d", "npl", "np", "colors", "i", "r", "g", "b",
   "initcond", "exact1", "exact2",
   "plot_space_snaps", "plot_time_snaps", "plot_solution",
   "plot_history", "plot_time",
   "nx", "ny", "tindex",
   "exp_euler", "exp_euler_new", "imp_euler", "imp_euler_new",
   "cni", "cni_new", "solutions",
   "sol20", "sol30", "sol40", "sol50", "solution",
   "linear_summary", "nonlinear_summary1", "nonlinear_summary2",
   "nonlinear_summary3", "nonsol1", "nonsol2", "nonsol3",
   "Z", "fig", "ax"]

/-- Message of the NameError raised by evaluating an unbound name. -/
def nameErrMsg (n : String) : String :=
  "NameError: name " ++ n ++ " is not defined"

/-- Evaluation of a bare global name against the bound names, raising the
Python NameError when the name is not bound. -/
def evalNameIn (globals : List String) (n : String) : Except String Unit :=
  if n ∈ globals then Except.ok ()
  else Except.error (nameErrMsg n)

/-- The three reshaped fields handed to the plot routines. -/
structure PlotData where
  time : NpGrid
  x : NpGrid
  state : NpGrid

/-- Result of npl.Map on one data file: the three named flat fields. -/
structure RawMap where
  time : NpArray
  x : NpArray
  state : NpArray

/-- Effect-trace model of plot_space_snaps(data, [s₀, s₁], xval, exact, name),
following the statement order of the source: figure and subplots are
created, rows s₀ and s₁ of the time field are sliced and printed, the first
curve (the exact solution at xval[0]) is drawn, and the second drawing call
evaluates its arguments left to right, slicing row s₀ of the state field and
then formatting the label  x=%2gs % (xval)  BEFORE the drawing happens; two
more curves follow the same way, and savefig comes last. -/
def plot_space_snaps (data : PlotData) (s₀ s₁ : Int) (xval : PyVal)
    (exact : ℝ → ℝ → ℝ) (name : String) : List Eff × Option String :=
  let effs := [Eff.figure, Eff.figure]
  match gridRow data.time s₀ with
  | Except.error e => (effs, some e)
  | Except.ok _time0 =>
  match gridRow data.time s₁ with
  | Except.error e => (effs, some e)
  | Except.ok _time1 =>
  let effs := effs ++ [Eff.printArr, Eff.printArr]
  match pyIndex xval 0 with
  | Except.error e => (effs, some e)
  | Except.ok _x0 =>
  let effs := effs ++ [Eff.plotLine]
  match gridRow data.state s₀ with
  | Except.error e => (effs, some e)
  | Except.ok _st0 =>
  match pyFormatG xval with
  | Except.error e => (effs, some e)
  | Except.ok _label0 =>
  let effs := effs ++ [Eff.plotLine]
  match pyIndex xval 1 with
  | Except.error e => (effs, some e)
  | Except.ok _x1 =>
  let effs := effs ++ [Eff.plotLine]
  match gridRow data.state s₁ with
  | Except.error e => (effs, some e)
  | Except.ok _st1 =>
  match pyFormatG xval with
  | Except.error e => (effs, some e)
  | Except.ok _label1 =>
  let effs := effs ++ [Eff.plotLine]
  (effs ++ [Eff.savefig name], none)

/-- Effect-trace model of plot_time(summary, name): the body never mentions
its summary parameter; after the figure setup, the first loglog call begins
by evaluating the bare global name jacobi (the later calls evaluate seidel
and sor), and savefig comes last.  The globals parameter is the module
environment in force at the call. -/
def plot_time {α : Type} (globals : List String) (summary : α)
    (name : String) : List Eff × Option String :=
  let effs := [Eff.figure, Eff.figure]
  match evalNameIn globals ("jacobi") with
  | Except.error e => (effs, some e)
  | Except.ok _ =>
  let effs := effs ++ [Eff.plotLine]
  match evalNameIn globals ("seidel") with
  | Except.error e => (effs, some e)
  | Except.ok _ =>
  let effs := effs ++ [Eff.plotLine]
  match evalNameIn globals ("sor") with
  | Except.error e => (effs, some e)
  | Except.ok _ =>
  let effs := effs ++ [Eff.plotLine]
  (effs ++ [Eff.savefig name], none)

/-- Reshape the three fields of a loaded map to (nx, ny), mirroring the
three consecutive reshape statements of the script. -/
def reshapeMap (m : RawMap) (nx ny : Nat) : Except String PlotData :=
  match npReshape m.time nx ny with
  | Except.error e => Except.error e
  | Except.ok gtime =>
  match npReshape m.x nx ny with
  | Except.error e => Except.error e
  | Except.ok gx =>
  match npReshape m.state nx ny with
  | Except.error e => Except.error e
  | Except.ok gstate => Except.ok ⟨gtime, gx, gstate⟩

/-- The concrete xval argument [15.0, 25.0] of the live plot_space_snaps
calls: a Python list of two floats. -/
def xvalCase1 : PyVal := PyVal.list [PyVal.float 15.0, PyVal.float 25.0]

/-- Effect-trace model of the executable top level of post.py, parameterised
by the external array-file reader.  In source order: load the explicit Euler
file, reshape its three fields to (nx, ny) = (500, 3001), call
plot_space_snaps for case 1, evaluate the bare name stop, then load and
reshape the implicit Euler and Crank-Nicolson files, call plot_space_snaps
for both, and evaluate stop again.  The statements beyond the second stop
(the case 2 section and the dead exploratory branches) are behind a second
always-raising stop and are not modelled. -/
noncomputable def runScript (load : String → Except String RawMap) :
    List Eff × Option String :=
  match load ("case1-transport-explicit-euler.dat") with
  | Except.error e => ([], some e)
  | Except.ok exp_euler =>
  let effs := [Eff.load ("case1-transport-explicit-euler.dat")]
  match reshapeMap exp_euler 500 3001 with
  | Except.error e => (effs, some e)
  | Except.ok exp_euler_new =>
  let res := plot_space_snaps exp_euler_new 125 250 xvalCase1 exact1Default
      ("case1-spacesnap-expeuler.pdf")
  let effs := effs ++ res.1
  match res.2 with
  | some e => (effs, some e)
  | none =>
  match evalNameIn scriptGlobals ("stop") with
  | Except.error e => (effs, some e)
  | Except.ok _ =>
  match load ("case1-transport-implicit-euler.dat") with
  | Except.error e => (effs, some e)
  | Except.ok imp_euler =>
  let effs := effs ++ [Eff.load ("case1-transport-implicit-euler.dat")]
  match reshapeMap imp_euler 500 3001 with
  | Except.error e => (effs, some e)
  | Except.ok imp_euler_new =>
  match load ("case1-transport-cni.dat") with
  | Except.error e => (effs, some e)
  | Except.ok cni =>
  let effs := effs ++ [Eff.load ("case1-transport-cni.dat")]
  match reshapeMap cni 500 3001 with
  | Except.error e => (effs, some e)
  | Except.ok cni_new =>
  let res2 := plot_space_snaps imp_euler_new 125 250 xvalCase1 exact1Default
      ("case1-spacesnap-impeuler.pdf")
  let effs := effs ++ res2.1
  match res2.2 with
  | some e => (effs, some e)
  | none =>
  let res3 := plot_space_snaps cni_new 125 250 xvalCase1 exact1Default
      ("case1-spacesnap-cni.pdf")
  let effs := effs ++ res3.1
  match res3.2 with
  | some e => (effs, some e)
  | none =>
  match evalNameIn scriptGlobals ("stop") with
  | Except.error e => (effs, some e)
  | Except.ok _ => (effs, none)

/-- A loader whose files hold well-formed data: each field has exactly
nx * ny = 1503500 entries. -/
noncomputable def goodLoad : String → Except String RawMap :=
  fun _ => Except.ok ⟨⟨500 * 3001, fun _ => 0⟩, ⟨500 * 3001, fun _ => 0⟩,
    ⟨500 * 3001, fun _ => 0⟩⟩

/-- On grids of shape (500, 3001), the first space-snapshot plot call halts
at the label formatting: rows 125 and 250 slice fine, the first curve is
drawn, and the list-valued xval then fails the %g conversion with the
TypeError before anything is saved. -/
theorem plot_space_snaps_label_type_error (f g h : Nat → Nat → ℝ)
    (exact : ℝ → ℝ → ℝ) (name : String) :
    plot_space_snaps ⟨⟨500, 3001, f⟩, ⟨500, 3001, g⟩, ⟨500, 3001, h⟩⟩
        125 250 xvalCase1 exact name =
      ([Eff.figure, Eff.figure, Eff.printArr, Eff.printArr, Eff.plotLine],
        some typeErrMsg) := rfl

/-- Key computation for C8: under any loader whose first data file holds
well-shaped fields, the whole run produces only the explicit-Euler load and
the first plot attempt, which dies on the label TypeError. -/
theorem runScript_trace (load : String → Except String RawMap)
    (m : RawMap) (hm : load ("case1-transport-explicit-euler.dat") = Except.ok m)
    (ht : m.time.size = 500 * 3001) (hx : m.x.size = 500 * 3001)
    (hs : m.state.size = 500 * 3001) :
    runScript load =
      ([Eff.load ("case1-transport-explicit-euler.dat"), Eff.figure, Eff.figure,
        Eff.printArr, Eff.printArr, Eff.plotLine], some typeErrMsg) := by
  have hr : reshapeMap m 500 3001 = Except.ok
      ⟨⟨500, 3001, fun a b => m.time.val (a * 3001 + b)⟩,
       ⟨500, 3001, fun a b => m.x.val (a * 3001 + b)⟩,
       ⟨500, 3001, fun a b => m.state.val (a * 3001 + b)⟩⟩ := by
    simp only [reshapeMap, npReshape]
    rw [if_pos ht, if_pos hx, if_pos hs]
  simp only [runScript, hm, hr, plot_space_snaps_label_type_error,
    List.cons_append, List.nil_append]

/-- C8 counterexample: running the script on well-formed data files, the
file case1-spacesnap-expeuler.pdf is never saved, and the error that halts
the run is the label TypeError inside the first plot_space_snaps call, not
the NameError that evaluating the bare name stop would raise: execution
never reaches the stop statement. -/
theorem script_stop_never_reached :
    Eff.savefig ("case1-spacesnap-expeuler.pdf") ∉ (runScript goodLoad).1 ∧
    (runScript goodLoad).2 = some typeErrMsg ∧
    (runScript goodLoad).2 ≠ some (nameErrMsg ("stop")) := by
  have hrun : runScript goodLoad =
      ([Eff.load ("case1-transport-explicit-euler.dat"), Eff.figure, Eff.figure,
        Eff.printArr, Eff.printArr, Eff.plotLine], some typeErrMsg) :=
    runScript_trace goodLoad
      ⟨⟨500 * 3001, fun _ => 0⟩, ⟨500 * 3001, fun _ => 0⟩,
        ⟨500 * 3001, fun _ => 0⟩⟩ rfl rfl rfl rfl
  refine ⟨?_, ?_, ?_⟩
  · rw [hrun]
    simp
  · rw [hrun]
  · rw [hrun]
    simp [typeErrMsg, nameErrMsg]

/-- C8 amended: executed with data files that load as flat fields of length
nx*ny, the script aborts inside the first plot_space_snaps call with the
TypeError raised by formatting the label  x=%2gs  with the list-valued xval,
before plt.savefig runs; so case1-spacesnap-expeuler.pdf is never written,
the bare name stop on line 228 is never evaluated, no statement after the
plot call on line 226 executes, the implicit-Euler and Crank-Nicolson data
files are never loaded, and no plot file at all is produced in that
invocation. -/
theorem script_aborts_in_first_plot (load : String → Except String RawMap)
    (m : RawMap) (hm : load ("case1-transport-explicit-euler.dat") = Except.ok m)
    (ht : m.time.size = 500 * 3001) (hx : m.x.size = 500 * 3001)
    (hs : m.state.size = 500 * 3001) :
    (runScript load).2 = some typeErrMsg ∧
    (∀ f, Eff.savefig f ∉ (runScript load).1) ∧
    Eff.load ("case1-transport-implicit-euler.dat") ∉ (runScript load).1 ∧
    Eff.load ("case1-transport-cni.dat") ∉ (runScript load).1 := by
  have hrun := runScript_trace load m hm ht hx hs
  refine ⟨by rw [hrun], ?_, ?_, ?_⟩
  · intro f
    rw [hrun]
    simp
  · rw [hrun]
    simp
  · rw [hrun]
    simp

/-- Witness for the amended C8 at the concrete well-formed loader. -/
theorem script_aborts_in_first_plot_witness :
    (runScript goodLoad).2 = some typeErrMsg ∧
    (∀ f, Eff.savefig f ∉ (runScript goodLoad).1) ∧
    Eff.load ("case1-transport-implicit-euler.dat") ∉ (runScript goodLoad).1 ∧
    Eff.load ("case1-transport-cni.dat") ∉ (runScript goodLoad).1 :=
  script_aborts_in_first_plot goodLoad
    ⟨⟨500 * 3001, fun _ => 0⟩, ⟨500 * 3001, fun _ => 0⟩,
      ⟨500 * 3001, fun _ => 0⟩⟩ rfl rfl rfl rfl

/-- With the module globals of post.py, plot_time halts on the jacobi
NameError right after the figure setup. -/
theorem plot_time_run {α : Type} (s : α) (name : String) :
    plot_time scriptGlobals s name =
      ([Eff.figure, Eff.figure], some (nameErrMsg ("jacobi"))) := by
  have hj : ("jacobi") ∉ scriptGlobals := by decide
  simp only [plot_time, evalNameIn, if_neg hj]

/-- C9: plot_time never reads its summary parameter (its result is the same
for any two summaries of any types), and since the module globals of post.py
never bind jacobi, seidel or sor, every call with them raises the NameError
for jacobi and produces no output file. -/
theorem plot_time_ignores_summary {α β : Type} (s₁ : α) (s₂ : β)
    (name : String) :
    plot_time scriptGlobals s₁ name = plot_time scriptGlobals s₂ name ∧
    (plot_time scriptGlobals s₁ name).2 = some (nameErrMsg ("jacobi")) ∧
    ∀ f, Eff.savefig f ∉ (plot_time scriptGlobals s₁ name).1 := by
  refine ⟨?_, ?_, ?_⟩
  · rw [plot_time_run s₁ name, plot_time_run s₂ name]
  · rw [plot_time_run s₁ name]
  · intro f
    rw [plot_time_run s₁ name]
    simp

/-- Witness for C9 at two concrete summaries of different types. -/
theorem plot_time_ignores_summary_witness :
    plot_time scriptGlobals (0 : Nat) ("wall-time.pdf") =
        plot_time scriptGlobals ("summary") ("wall-time.pdf") ∧
    (plot_time scriptGlobals (0 : Nat) ("wall-time.pdf")).2 =
        some (nameErrMsg ("jacobi")) ∧
    ∀ f, Eff.savefig f ∉ (plot_time scriptGlobals (0 : Nat) ("wall-time.pdf")).1 :=
  plot_time_ignores_summary (0 : Nat) ("summary") ("wall-time.pdf")

end Diffusion
